import Mathlib

/-!
Verification development for the wrtn HTTP client (src/wrtn/http.py).

The Python module is shallowly embedded: JSON values become an inductive
type, the aiohttp transport becomes an oracle of raw responses indexed by
the number of requests issued so far, Python exceptions become an
`Except` result threaded next to the mutated client state, and external
collaborators (the jwt decoder, utils.get_expired_from) become oracle
fields of an `Env` record.
-/

set_option maxHeartbeats 1000000

/-- A JSON value, as produced by the transport body parser. -/
inductive JVal where
  | null
  | bool (b : Bool)
  | num (n : Int)
  | str (s : String)
  | arr (xs : List JVal)
  | obj (fields : List (String × JVal))

/-- A normalized response body: parsed JSON data or raw text
(the two possible results of the `content_type` normalizer). -/
inductive Body where
  | text (s : String)
  | json (v : JVal)

/-- A raw transport response, as exposed by the aiohttp contract the
source consumes: a status code, a declared content type, the body as
text, and what awaiting `response.json()` yields — the parsed body on
success, or `Except.error ()` when the await raises (JSONDecodeError
for an unparseable body, ContentTypeError for a non-JSON declared
type). -/
structure TResp where
  status : Nat
  content_type : String
  text : String
  json : Except Unit JVal

/-- Python `dict` lookup on a field-association list. -/
def lookupField (fields : List (String × JVal)) (key : String) : Option JVal :=
  (fields.find? (fun p => p.1 == key)).map (fun p => p.2)

/-- An unawaited aiohttp body coroutine: `response.text()` or
`response.json()`.  Calling either method only creates the coroutine
and never raises; any parse error surfaces later, at the `await`. -/
inductive PyCoroutine where
  | textCo (s : String)
  | jsonCo (result : Except Unit JVal)

/-- Embedding of the module-level `content_type` function
(http.py lines 26-31): an HTML-typed response returns the
`response.text()` coroutine; otherwise the function returns the
`response.json()` coroutine from inside the
`contextlib.suppress(Exception)` block.  Because `json()` is an async
method, the call never raises here, the suppress never fires, and the
trailing `return response.text()` fallback (http.py line 31) is dead
code — so it has no counterpart in this definition. -/
def content_type (response : TResp) : PyCoroutine :=
  if response.content_type == "text/html" then PyCoroutine.textCo response.text
  else PyCoroutine.jsonCo response.json

/-- Awaiting the coroutine `content_type` returned, as done at
`data = await content_type(response)` (http.py line 137): a text
coroutine yields the raw text; a json coroutine yields the parsed body
when parsing succeeds and raises at this point — outside any
suppress — when it fails. -/
def await_co : PyCoroutine → Except Unit Body
  | PyCoroutine.textCo s => Except.ok (Body.text s)
  | PyCoroutine.jsonCo (Except.ok v) => Except.ok (Body.json v)
  | PyCoroutine.jsonCo (Except.error u) => Except.error u

/-- The typed errors of the client.  The first six variants are modelled
from the spec: the `errors` module of this repository is not under src/,
and the spec (section 3 and section 7) says each HTTP error carries the
status and the normalized body, while `UserNotFound` and
`InvalidEmailVerifyCode` carry a plain message.  The remaining variants
embed the Python runtime errors the source can raise
(`AttributeError`, `TypeError`, `KeyError`), a decode failure of the
external jwt library, and the body-parse error the transport raises at
`await content_type(response)` (aiohttp JSONDecodeError or
ContentTypeError). -/
inductive WrtnError where
  | httpException (status : Nat) (body : Body)
  | forbidden (status : Nat) (body : Body)
  | notFound (status : Nat) (body : Body)
  | serverError (status : Nat) (body : Body)
  | userNotFound (msg : String)
  | invalidEmailVerifyCode
  | attributeError
  | typeError
  | keyError
  | jwtDecodeError
  | jsonDecodeError

/-- Python `data.get(key)` on a normalized body: defined only when the
body is a JSON object (a Python `dict`); on any other body (raw text,
JSON list, number, string, null) attribute lookup of `.get` raises
`AttributeError`. -/
def dictGet (data : Body) (key : String) : Except WrtnError (Option JVal) :=
  match data with
  | Body.json (JVal.obj fields) => Except.ok (lookupField fields key)
  | _ => Except.error WrtnError.attributeError

/-- Python `x == "lit"` where `x` is a `dict.get` result: true exactly
when `x` is that string; `None` and values of any other type compare
unequal to a string without raising. -/
def pyEqStr : Option JVal → String → Bool
  | some (JVal.str s), t => s == t
  | _, _ => false

/-- Embedding of the status/body dispatch of `HTTPClient.request`
(http.py lines 139-150): a 2xx status returns the body unchanged;
otherwise `data.get("result")` is evaluated first (raising
`AttributeError` for a non-dict body), then the combined condition
`not result == "SUCCESS" or status == 403` routes to `Forbidden`
before the 404 and 500 checks are ever reached. -/
def classify (status : Nat) (data : Body) : Except WrtnError Body :=
  if 200 ≤ status ∧ status < 300 then Except.ok data
  else
    match dictGet data "result" with
    | Except.error pe => Except.error pe
    | Except.ok r =>
      if !(pyEqStr r "SUCCESS") || status == 403 then
        Except.error (WrtnError.forbidden status data)
      else if status == 404 then Except.error (WrtnError.notFound status data)
      else if 500 ≤ status then Except.error (WrtnError.serverError status data)
      else Except.error (WrtnError.httpException status data)

/-- Embedding of the `Route` class (http.py lines 34-52): an immutable
(method, path, base, url) record with `url = base + path`. -/
structure Route where
  method : String
  path : String
  base : String
  url : String

/-- The single API family base origin (`Route.API`). -/
def Route.API : String := "https://api.wow.wrtn.ai"

/-- Embedding of the `Route.api` classmethod: resolve against the
fixed API origin. -/
def Route.api (method path : String) : Route :=
  { method := method, path := path, base := Route.API, url := Route.API ++ path }

/-- Python dict assignment `h[k] = v` on an insertion-ordered header
map without duplicate keys: replace in place when the key is present,
append otherwise. -/
def hset : List (String × String) → String → String → List (String × String)
  | [], k, v => [(k, v)]
  | (k0, v0) :: t, k, v =>
    if k0 == k then (k, v) :: t else (k0, v0) :: hset t k v

/-- Header lookup by key. -/
def hget (h : List (String × String)) (k : String) : Option String :=
  (h.find? (fun p => p.1 == k)).map (fun p => p.2)

/-- Embedding of `HTTPClient.set_browser_header` (http.py lines 79-98):
assigns the fixed browser-emulation header fields, overwriting any
caller-supplied values for those keys. -/
def set_browser_header (header : List (String × String)) : List (String × String) :=
  let h := hset header "Accept" "application/json, text/plain, */*"
  let h := hset h "Accept-Encoding" "gzip, deflate, br"
  let h := hset h "Accept-Language" "ko-KR,ko;q=0.9,en-US;q=0.8,en;q=0.7"
  let h := hset h "Origin" "https://wrtn.ai"
  let h := hset h "Referer" "https://wrtn.ai"
  let h := hset h "Sec-Ch-Ua" "\"Not/A)Brand\";v=\"99\", \"Google Chrome\";v=\"115\", \"Chromium\";v=\"115\""
  let h := hset h "Sec-Ch-Ua-Mobile" "?0"
  let h := hset h "Sec-Ch-Ua-Platform" "\"Windows\""
  let h := hset h "Sec-Fetch-Dest" "empty"
  let h := hset h "Sec-Fetch-Mode" "cors"
  let h := hset h "Sec-Fetch-Site" "same-site"
  hset h "User-Agent"
    ("Mozilla/5.0 (Windows NT 10.0; Win64; x64)" ++
      "AppleWebKit/537.36 (KHTML, like Gecko) Chrome/115.0.0.0 Safari/537.36")

/-- The mutable session fields of `HTTPClient` set by `__init__`
(http.py lines 69-71): `token` and `refresh_token` hold arbitrary
Python values assigned from JSON bodies (`none` models Python `None`),
`refresh_time` holds a timestamp (datetime modelled as epoch seconds). -/
structure ClientState where
  token : Option JVal
  refresh_token : Option JVal
  refresh_time : Option Int

/-- External collaborators of the client, modelled as oracles:
the transport (numbered raw responses, one per request issued),
the jwt library (a verifying and a non-verifying decoder returning the
payload dict or raising), and `utils.get_expired_from`.
The definition of `get_expired_from` is modelled from the spec:
utils.py is not under src/, and the spec (section 4.5) only says it
derives the stored expiry from the token, so it is kept fully
abstract. -/
structure Env where
  oracle : Nat → TResp
  jwt_decode_noverify : String → Except Unit (List (String × JVal))
  jwt_decode_verify : String → Except Unit (List (String × JVal))
  get_expired_from : JVal → Except WrtnError Int

/-- A record of one HTTP request handed to the transport. -/
structure HttpCall where
  method : String
  url : String
  headers : List (String × String)

/-- The transport-interaction state: how many requests have been
issued (indexing the oracle) and the trace of issued calls. -/
structure Exec where
  idx : Nat
  calls : List HttpCall

/-- Python `"Bearer " + self.token` when a token is set, and the
literal sentinel `"Bearer undefined"` when it is `None`
(http.py lines 110-113); concatenating a non-string token value
raises `TypeError`. -/
def auth_header_value : Option JVal → Except WrtnError String
  | none => Except.ok "Bearer undefined"
  | some (JVal.str t) => Except.ok ("Bearer " ++ t)
  | some _ => Except.error WrtnError.typeError

/-- Header assembly of `HTTPClient.request` (http.py lines 107-117):
browser headers over the caller's headers, then the Authorization
header, then the Content-Type header when a json body is supplied
(form-urlencoded for GET, json otherwise). -/
def build_request_headers (token : Option JVal) (headers0 : List (String × String))
    (hasJson : Bool) (method : String) : Except WrtnError (List (String × String)) :=
  match auth_header_value token with
  | Except.error pe => Except.error pe
  | Except.ok a =>
    let h := hset (set_browser_header headers0) "Authorization" a
    Except.ok
      (if hasJson then
        hset h "Content-Type"
          ("application/" ++
            (if method == "GET" then "x-www-form-urlencoded" else "json") ++
            ";charset=UTF-8")
      else h)

namespace HTTPClient

/-- Embedding of `HTTPClient.__init__` (http.py lines 69-71): `token`
and `refresh_token` start as `None`, while `refresh_time` is assigned
`datetime.now()` — the construction time, not `None`. -/
def init (now : Int) : ClientState :=
  { token := none, refresh_token := none, refresh_time := some now }

/-- Embedding of `HTTPClient.request` (http.py lines 100-150): build
the headers (a non-string token raises before the transport is
touched), dispatch to the transport (recording the call and consuming
the next oracle response), then `data = await content_type(response)`
(line 137) — awaiting a json coroutine over a malformed body raises
here, after the call was issued but before any status dispatch — and
finally dispatch on status/body with `classify`.  The session state is
read (for the token) but never written. -/
def request (env : Env) (route : Route) (headers0 : List (String × String))
    (hasJson : Bool) (c : ClientState) (e : Exec) : Except WrtnError Body × Exec :=
  match build_request_headers c.token headers0 hasJson route.method with
  | Except.error pe => (Except.error pe, e)
  | Except.ok hdrs =>
    let t := env.oracle e.idx
    let e1 : Exec :=
      { idx := e.idx + 1,
        calls := e.calls ++ [{ method := route.method, url := route.url, headers := hdrs }] }
    match await_co (content_type t) with
    | Except.error _ => (Except.error WrtnError.jsonDecodeError, e1)
    | Except.ok data => (classify t.status data, e1)

end HTTPClient

/-- Python subscript `v[key]` with a string key on a JSON value: a dict
looks the key up (`KeyError` when absent); strings, lists, numbers,
booleans and null raise `TypeError` for a string index. -/
def subscriptV (v : JVal) (key : String) : Except WrtnError JVal :=
  match v with
  | JVal.obj fields =>
    match lookupField fields key with
    | some w => Except.ok w
    | none => Except.error WrtnError.keyError
  | _ => Except.error WrtnError.typeError

/-- Python subscript `body[key]` on a normalized body: a raw-text body
is a Python `str`, so a string index raises `TypeError`. -/
def subscriptB (body : Body) (key : String) : Except WrtnError JVal :=
  match body with
  | Body.text _ => Except.error WrtnError.typeError
  | Body.json v => subscriptV v key

/-- Python `len(v)`: length of a dict, list or string; `TypeError` on
numbers, booleans and null. -/
def pyLen (v : JVal) : Except WrtnError Nat :=
  match v with
  | JVal.obj fields => Except.ok fields.length
  | JVal.arr xs => Except.ok xs.length
  | JVal.str s => Except.ok s.length
  | _ => Except.error WrtnError.typeError

/-- Python `v == "lit"` for a JSON value (not an `Option`): string
equality when `v` is a string, false for every other type. -/
def pyEqStrV : JVal → String → Bool
  | JVal.str s, t => s == t
  | _, _ => false

/-- Whether the first character list is a prefix of the second. -/
def charsPrefix : List Char → List Char → Bool
  | [], _ => true
  | _ :: _, [] => false
  | p :: ps, c :: cs => p == c && charsPrefix ps cs

/-- Whether the first character list occurs inside the second. -/
def charsContains (pat : List Char) : List Char → Bool
  | [] => charsPrefix pat []
  | c :: cs => charsPrefix pat (c :: cs) || charsContains pat cs

/-- Python substring test `pat in s` for strings (an empty pattern is
contained in every string). -/
def strContains (s pat : String) : Bool :=
  charsContains pat.data s.data

/-- Python membership `pat in v` for a string `pat` against a JSON
value: substring test on a string, key test on a dict, element test on
a list; `TypeError` on numbers, booleans and null (`argument of type X
is not iterable`). -/
def pyIn (pat : String) (v : JVal) : Except WrtnError Bool :=
  match v with
  | JVal.str s => Except.ok (strContains s pat)
  | JVal.obj fields => Except.ok (fields.any (fun p => p.1 == pat))
  | JVal.arr xs => Except.ok (xs.any (fun x => pyEqStrV x pat))
  | _ => Except.error WrtnError.typeError

namespace HTTPClient

/-- Embedding of `HTTPClient.static_login` (http.py lines 156-167):
creates the transport session (no HTTP request), stores the token and
refresh token, then decodes the token with `verify_signature: False`
and stores the payload `exp` claim as `refresh_time`
(`datetime.fromtimestamp` accepts numbers and booleans and raises
`TypeError` otherwise; a missing claim raises `KeyError`).  A decode
failure or a bad claim raises after the token and refresh token were
already assigned. -/
def static_login (env : Env) (token refresh_token : String) (c : ClientState)
    (e : Exec) : Except WrtnError Unit × ClientState × Exec :=
  let c1 : ClientState :=
    { c with token := some (JVal.str token), refresh_token := some (JVal.str refresh_token) }
  match env.jwt_decode_noverify token with
  | Except.error _ => (Except.error WrtnError.jwtDecodeError, c1, e)
  | Except.ok payload =>
    match lookupField payload "exp" with
    | none => (Except.error WrtnError.keyError, c1, e)
    | some (JVal.num n) => (Except.ok (), { c1 with refresh_time := some n }, e)
    | some (JVal.bool b) =>
      (Except.ok (), { c1 with refresh_time := some (if b then 1 else 0) }, e)
    | some _ => (Except.error WrtnError.typeError, c1, e)

/-- The post-processing of `HTTPClient.email_exist` on a successful
response body (http.py lines 197-201): an empty `data` result is
`False`, a non-"local" provider is `False`, otherwise `True`; subscript
and `len` failures raise. -/
def email_exist_post (body : Body) : Except WrtnError Bool :=
  match subscriptB body "data" with
  | Except.error pe => Except.error pe
  | Except.ok d =>
    match pyLen d with
    | Except.error pe => Except.error pe
    | Except.ok 0 => Except.ok false
    | Except.ok (_ + 1) =>
      match subscriptV d "provider" with
      | Except.error pe => Except.error pe
      | Except.ok p => if pyEqStrV p "local" then Except.ok true else Except.ok false

/-- Embedding of `HTTPClient.email_exist` (http.py lines 193-201):
one GET /auth/check request, then the empty/provider dispatch. -/
def email_exist (env : Env) (email : String) (c : ClientState) (e : Exec) :
    Except WrtnError Bool × Exec :=
  match request env (Route.api "GET" "/auth/check") [] false c e with
  | (Except.error err, e1) => (Except.error err, e1)
  | (Except.ok body, e1) => (email_exist_post body, e1)

/-- Embedding of `HTTPClient.local_login` (http.py lines 169-191):
existence check (raising `UserNotFound` on `False`), a second redundant
existence check, the POST /auth/local request, then the assignments of
`token`, `refresh_token` and `refresh_time` in source order — a failure
mid-sequence leaves the earlier assignments in place. -/
def local_login (env : Env) (email password : String) (c : ClientState) (e : Exec) :
    Except WrtnError Unit × ClientState × Exec :=
  match email_exist env email c e with
  | (Except.error err, e1) => (Except.error err, c, e1)
  | (Except.ok false, e1) =>
    (Except.error (WrtnError.userNotFound "You are not signed in or are not a local user."), c, e1)
  | (Except.ok true, e1) =>
    match email_exist env email c e1 with
    | (Except.error err, e2) => (Except.error err, c, e2)
    | (Except.ok _, e2) =>
      match request env (Route.api "POST" "/auth/local") [] true c e2 with
      | (Except.error err, e3) => (Except.error err, c, e3)
      | (Except.ok body, e3) =>
        match subscriptB body "data" with
        | Except.error pe => (Except.error pe, c, e3)
        | Except.ok d =>
          match subscriptV d "accessToken" with
          | Except.error pe => (Except.error pe, c, e3)
          | Except.ok av =>
            match subscriptV d "refreshToken" with
            | Except.error pe => (Except.error pe, { c with token := some av }, e3)
            | Except.ok rv =>
              match env.get_expired_from av with
              | Except.error pe =>
                (Except.error pe, { c with token := some av, refresh_token := some rv }, e3)
              | Except.ok m =>
                (Except.ok (),
                  { token := some av, refresh_token := some rv, refresh_time := some m }, e3)

/-- The check `"구독자 상태" in e.message.get("message")` of
`HTTPClient.send_verify_code` (http.py line 211) on the body carried by
a caught ServerError: `.get` on a non-dict body raises
`AttributeError`; a missing or null message makes the membership test
raise `TypeError`; otherwise Python membership decides. -/
def svcMarkerCheck (b : Body) : Except WrtnError Bool :=
  match b with
  | Body.json (JVal.obj fields) =>
    match lookupField fields "message" with
    | none => Except.error WrtnError.typeError
    | some JVal.null => Except.error WrtnError.typeError
    | some v => pyIn "구독자 상태" v
  | _ => Except.error WrtnError.attributeError

/-- The terminal error raised after the retry loop of
`send_verify_code` is exhausted (http.py line 215). -/
def svcTerminalError : WrtnError :=
  WrtnError.serverError 500 (Body.json (JVal.obj [("message", JVal.str "이메일 인증 코드 전송 실패")]))

/-- The retry loop of `HTTPClient.send_verify_code` (http.py lines
203-215), with the loop bound as explicit fuel: each iteration issues
one POST /auth/code request; success returns; a caught ServerError
whose body passes the marker check continues; a ServerError failing the
marker check is re-raised; a marker check that itself raises propagates
that error; any non-ServerError error propagates; exhausted fuel raises
the terminal ServerError. -/
def send_verify_code_aux (env : Env) (email : String) (c : ClientState) :
    Nat → Exec → Except WrtnError Unit × Exec
  | 0, e => (Except.error svcTerminalError, e)
  | fuel + 1, e =>
    match request env (Route.api "POST" "/auth/code") [] false c e with
    | (Except.ok _, e1) => (Except.ok (), e1)
    | (Except.error (WrtnError.serverError st b), e1) =>
      match svcMarkerCheck b with
      | Except.ok true => send_verify_code_aux env email c fuel e1
      | Except.ok false => (Except.error (WrtnError.serverError st b), e1)
      | Except.error pe => (Except.error pe, e1)
    | (Except.error err, e1) => (Except.error err, e1)

/-- Embedding of `HTTPClient.send_verify_code`: the loop runs for at
most 5 attempts (`for tries in range(5)`). -/
def send_verify_code (env : Env) (email : String) (c : ClientState) (e : Exec) :
    Except WrtnError Unit × Exec :=
  send_verify_code_aux env email c 5 e

/-- Embedding of the `HTTPClient.refresh_token` method body (http.py
lines 282-285): one POST /auth/refresh request, then assignment of
`token` and recomputation of `refresh_time` from the new access
token. -/
def refresh_token (env : Env) (c : ClientState) (e : Exec) :
    Except WrtnError Unit × ClientState × Exec :=
  match request env (Route.api "POST" "/auth/refresh") [] false c e with
  | (Except.error err, e1) => (Except.error err, c, e1)
  | (Except.ok body, e1) =>
    match subscriptB body "data" with
    | Except.error pe => (Except.error pe, c, e1)
    | Except.ok d =>
      match subscriptV d "accessToken" with
      | Except.error pe => (Except.error pe, c, e1)
      | Except.ok av =>
        match env.get_expired_from av with
        | Except.error pe => (Except.error pe, { c with token := some av }, e1)
        | Except.ok m =>
          (Except.ok (), { c with token := some av, refresh_time := some m }, e1)

end HTTPClient

/-- A Python attribute as seen by lookup on an `HTTPClient` instance:
either a plain data value from the instance dict (`none` is Python
`None`; the datetime in `refresh_time` is represented by its
timestamp), or a bound method from the class dict. -/
inductive Attr where
  | val (v : Option JVal)
  | timeVal (t : Option Int)
  | method (name : String)

/-- The instance-dict entries `__init__` guarantees on every
`HTTPClient` (http.py lines 69-71): `token`, `refresh_token` and
`refresh_time` are assigned at construction, so they are always present
in the instance dict. -/
def instLookup (c : ClientState) (name : String) : Option Attr :=
  if name == "token" then some (Attr.val c.token)
  else if name == "refresh_token" then some (Attr.val c.refresh_token)
  else if name == "refresh_time" then some (Attr.timeVal c.refresh_time)
  else none

/-- The methods defined on the `HTTPClient` class (http.py). -/
def classLookup (name : String) : Option Attr :=
  if name ∈ ["clear", "set_browser_header", "request", "close", "static_login",
      "local_login", "email_exist", "send_verify_code", "enter_verify_code",
      "register", "update_agreement", "update_info", "get_user", "get_chat_room",
      "refresh_token"] then
    some (Attr.method name)
  else none

/-- Python attribute lookup on an `HTTPClient` instance: the instance
dict shadows the class dict. -/
def getattr (c : ClientState) (name : String) : Option Attr :=
  match instLookup c name with
  | some a => some a
  | none => classLookup name

/-- Python call of the `refresh_token` attribute on an `HTTPClient`
instance (`client.refresh_token()`): when lookup yields the class
method, its body runs; when it yields an instance data value (the field
`__init__` and the logins assign), the value is not callable and the
call raises `TypeError` without touching the transport or the
session. -/
def call_refresh_token (env : Env) (c : ClientState) (e : Exec) :
    Except WrtnError Unit × ClientState × Exec :=
  match getattr c "refresh_token" with
  | some (Attr.method _) => HTTPClient.refresh_token env c e
  | some _ => (Except.error WrtnError.typeError, c, e)
  | none => (Except.error WrtnError.attributeError, c, e)

/-- A JSON response with the given status. -/
def respOf (status : Nat) (v : JVal) : TResp :=
  { status := status, content_type := "application/json", text := "", json := Except.ok v }

/-- A transport oracle answering every request with the same
response. -/
def constOracle (t : TResp) : Nat → TResp := fun _ => t

/-- A concrete environment for witnesses: every request yields the
given response; the non-verifying jwt decoder yields a payload with
`exp = 100`; the verifying decoder always fails; `get_expired_from`
yields 42. -/
def envOf (f : Nat → TResp) : Env :=
  { oracle := f
    jwt_decode_noverify := fun _ => Except.ok [("exp", JVal.num 100)]
    jwt_decode_verify := fun _ => Except.error ()
    get_expired_from := fun _ => Except.ok 42 }

/-- A concrete environment whose non-verifying jwt decoder fails on
every token. -/
def envBadDecode : Env :=
  { envOf (constOracle (respOf 200 (JVal.obj [("result", JVal.str "SUCCESS")]))) with
    jwt_decode_noverify := fun _ => Except.error () }

/-- The empty transport-interaction state. -/
def execEmpty : Exec := { idx := 0, calls := [] }

/-- The outcome of normalizing and classifying the response answering
the i-th transport request: the parse error of the normalization await
when it raises, the status/body classification otherwise. -/
def attemptClass (env : Env) (i : Nat) : Except WrtnError Body :=
  match await_co (content_type (env.oracle i)) with
  | Except.error _ => Except.error WrtnError.jsonDecodeError
  | Except.ok data => classify (env.oracle i).status data

/-- The header map `request` hands to the transport once the
Authorization value `a` has been computed. -/
def headersOk (a : String) (headers0 : List (String × String)) (hasJson : Bool)
    (method : String) : List (String × String) :=
  let h := hset (set_browser_header headers0) "Authorization" a
  if hasJson then
    hset h "Content-Type"
      ("application/" ++ (if method == "GET" then "x-www-form-urlencoded" else "json") ++
        ";charset=UTF-8")
  else h

/-- The recorded transport call of one `email_exist` existence check. -/
def checkCall (a : String) : HttpCall :=
  { method := "GET", url := Route.API ++ "/auth/check", headers := headersOk a [] false "GET" }

/-- The recorded transport call of one `send_verify_code` attempt. -/
def svcCall (a : String) : HttpCall :=
  { method := "POST", url := Route.API ++ "/auth/code", headers := headersOk a [] false "POST" }

/-- The outcome of one `email_exist` call as a function of the oracle:
the classified response fed through the empty/provider dispatch. -/
def emailOutcome (env : Env) (i : Nat) : Except WrtnError Bool :=
  match attemptClass env i with
  | Except.error err => Except.error err
  | Except.ok body => HTTPClient.email_exist_post body

/-- How one `send_verify_code` attempt ends the loop: `none` when the
attempt is retried (a ServerError whose body passes the marker check),
otherwise `some` of the result the loop stops with — success, the
re-raised ServerError when the marker is absent, or the error raised by
the marker check itself or by the request. -/
def stopResult (env : Env) (i : Nat) : Option (Except WrtnError Unit) :=
  match attemptClass env i with
  | Except.ok _ => some (Except.ok ())
  | Except.error (WrtnError.serverError st b) =>
    match HTTPClient.svcMarkerCheck b with
    | Except.ok true => none
    | Except.ok false => some (Except.error (WrtnError.serverError st b))
    | Except.error pe => some (Except.error pe)
  | Except.error err => some (Except.error err)

/-- Whether the i-th attempt of `send_verify_code` is retried. -/
def retryable (env : Env) (i : Nat) : Bool :=
  (stopResult env i).isNone

/-- The transport state after one more recorded `send_verify_code`
attempt. -/
def pushSvc (a : String) (e : Exec) : Exec :=
  { idx := e.idx + 1, calls := e.calls ++ [svcCall a] }

/-- A concrete HTML-typed response whose text is itself valid JSON. -/
def respHtmlJson : TResp :=
  { status := 200, content_type := "text/html", text := "[1]", json := Except.ok (JVal.num 1) }

/-- A concrete JSON-typed response whose body parses. -/
def respGoodJson : TResp :=
  { status := 200, content_type := "application/json", text := "1", json := Except.ok (JVal.num 1) }

/-- A concrete JSON-typed response whose body fails to parse. -/
def respBadJson : TResp :=
  { status := 200, content_type := "application/json", text := "nope", json := Except.error () }

/-- A concrete 200 HTML-typed response carrying plain non-JSON text
(its json coroutine would raise, but is never created). -/
def respHtmlPlain : TResp :=
  { status := 200, content_type := "text/html", text := "plain text", json := Except.error () }

/-- A 500 response body that carries the success marker and the
subscriber-status message, so that the classifier raises ServerError
and the retry loop retries. -/
def retryBody : JVal :=
  JVal.obj [("result", JVal.str "SUCCESS"), ("message", JVal.str "현재 구독자 상태 오류")]

/-- A 500 response body with the success marker but without the
subscriber-status message: ServerError, not retried. -/
def plainErrBody : JVal :=
  JVal.obj [("result", JVal.str "SUCCESS"), ("message", JVal.str "기타 오류")]

/-- Environment whose transport always answers 500 with the retryable
body. -/
def envRetry : Env := envOf (constOracle (respOf 500 retryBody))

/-- Environment whose transport always answers 200 with a body whose
`data` is empty (the no-such-account answer). -/
def envNoUser : Env :=
  envOf (constOracle (respOf 200 (JVal.obj [("result", JVal.str "SUCCESS"), ("data", JVal.obj [])])))

/-- Environment whose transport always answers 200 with an account
record of provider "kakao". -/
def envKakao : Env :=
  envOf (constOracle (respOf 200
    (JVal.obj [("result", JVal.str "SUCCESS"), ("data", JVal.obj [("provider", JVal.str "kakao")])])))

/-- Environment whose transport always answers 200 with an account
record of provider "local". -/
def envLocal : Env :=
  envOf (constOracle (respOf 200
    (JVal.obj [("result", JVal.str "SUCCESS"), ("data", JVal.obj [("provider", JVal.str "local")])])))

/-- The call record `request` appends to the trace for a given route
and header map. -/
def reqCall (route : Route) (hdrs : List (String × String)) : HttpCall :=
  { method := route.method, url := route.url, headers := hdrs }

/-- The session state after the concrete static login used by several
witnesses: token "t", refresh token "r", expiry 100. -/
def cLogged : ClientState :=
  { token := some (JVal.str "t"), refresh_token := some (JVal.str "r"),
    refresh_time := some 100 }

lemma hget_hset_self (h : List (String × String)) (k v : String) :
    hget (hset h k v) k = some v := by
  induction h with
  | nil =>
    unfold hset hget
    rw [List.find?_cons_of_pos _ (by simp)]
    rfl
  | cons p t ih =>
    rcases p with ⟨k0, v0⟩
    by_cases hk : (k0 == k) = true
    · unfold hset
      rw [if_pos hk]
      unfold hget
      rw [List.find?_cons_of_pos _ (by simp)]
      rfl
    · unfold hset
      rw [if_neg hk]
      unfold hget at ih ⊢
      rw [List.find?_cons_of_neg _ (by simpa using hk)]
      exact ih

lemma hget_hset_ne (h : List (String × String)) (k k2 v : String) (hne : k2 ≠ k) :
    hget (hset h k v) k2 = hget h k2 := by
  induction h with
  | nil =>
    unfold hset hget
    rw [List.find?_cons_of_neg _ (by simpa using Ne.symm hne)]
  | cons p t ih =>
    rcases p with ⟨k0, v0⟩
    by_cases hk : (k0 == k) = true
    · have hk0 : k0 = k := by simpa using hk
      subst hk0
      unfold hset
      rw [if_pos hk]
      unfold hget
      rw [List.find?_cons_of_neg _ (by simpa using Ne.symm hne),
        List.find?_cons_of_neg _ (by simpa using Ne.symm hne)]
    · unfold hset
      rw [if_neg hk]
      unfold hget at ih ⊢
      by_cases h2 : (k0 == k2) = true
      · rw [List.find?_cons_of_pos _ (by simpa using h2),
          List.find?_cons_of_pos _ (by simpa using h2)]
      · rw [List.find?_cons_of_neg _ (by simpa using h2),
          List.find?_cons_of_neg _ (by simpa using h2)]
        exact ih

lemma hget_headersOk_auth (a : String) (h0 : List (String × String)) (hj : Bool)
    (m : String) : hget (headersOk a h0 hj m) "Authorization" = some a := by
  unfold headersOk
  cases hj with
  | false => simpa using hget_hset_self (set_browser_header h0) "Authorization" a
  | true =>
    simp only [if_true]
    rw [hget_hset_ne _ _ _ _ (by decide)]
    exact hget_hset_self (set_browser_header h0) "Authorization" a

lemma build_request_headers_ok (tok : Option JVal) (h0 : List (String × String))
    (hj : Bool) (m : String) (a : String) (ha : auth_header_value tok = Except.ok a) :
    build_request_headers tok h0 hj m = Except.ok (headersOk a h0 hj m) := by
  unfold build_request_headers headersOk
  rw [ha]

lemma request_ok (env : Env) (route : Route) (h0 : List (String × String)) (hj : Bool)
    (c : ClientState) (e : Exec) (a : String)
    (ha : auth_header_value c.token = Except.ok a) :
    HTTPClient.request env route h0 hj c e =
      (attemptClass env e.idx,
        { idx := e.idx + 1,
          calls := e.calls ++
            [{ method := route.method, url := route.url, headers := headersOk a h0 hj route.method }] }) := by
  unfold HTTPClient.request attemptClass
  rw [build_request_headers_ok c.token h0 hj route.method a ha]
  rcases hn : await_co (content_type (env.oracle e.idx)) with u | data <;> simp [hn]

lemma email_exist_eq (env : Env) (em : String) (c : ClientState) (e : Exec) (a : String)
    (ha : auth_header_value c.token = Except.ok a) :
    HTTPClient.email_exist env em c e =
      (emailOutcome env e.idx, { idx := e.idx + 1, calls := e.calls ++ [checkCall a] }) := by
  unfold HTTPClient.email_exist
  rw [request_ok env (Route.api "GET" "/auth/check") [] false c e a ha]
  unfold emailOutcome checkCall
  rcases h : attemptClass env e.idx with err | body <;> simp [Route.api]

lemma pyEqStrV_true (p : JVal) (t : String) (h : pyEqStrV p t = true) : p = JVal.str t := by
  cases p <;> simp [pyEqStrV] at h
  simp [h]

lemma retryable_none (env : Env) (i : Nat) (h : retryable env i = true) :
    stopResult env i = none := by
  unfold retryable at h
  exact Option.isNone_iff_eq_none.mp h

lemma svc_aux_step (env : Env) (em : String) (c : ClientState) (a : String)
    (ha : auth_header_value c.token = Except.ok a) (fuel : Nat) (e : Exec) :
    HTTPClient.send_verify_code_aux env em c (fuel + 1) e =
      match stopResult env e.idx with
      | some res => (res, pushSvc a e)
      | none => HTTPClient.send_verify_code_aux env em c fuel (pushSvc a e) := by
  show (match HTTPClient.request env (Route.api "POST" "/auth/code") [] false c e with
    | (Except.ok _, e1) => (Except.ok (), e1)
    | (Except.error (WrtnError.serverError st b), e1) =>
      match HTTPClient.svcMarkerCheck b with
      | Except.ok true => HTTPClient.send_verify_code_aux env em c fuel e1
      | Except.ok false => (Except.error (WrtnError.serverError st b), e1)
      | Except.error pe => (Except.error pe, e1)
    | (Except.error err, e1) => (Except.error err, e1)) = _
  rw [request_ok env (Route.api "POST" "/auth/code") [] false c e a ha]
  unfold stopResult pushSvc svcCall
  rcases hc : attemptClass env e.idx with err | body
  · rcases err <;> simp [Route.api]
    rcases hm : HTTPClient.svcMarkerCheck _ with pe | bb
    · simp
    · cases bb <;> simp
  · simp [Route.api]

lemma svc_aux_step_stop (env : Env) (em : String) (c : ClientState) (a : String)
    (ha : auth_header_value c.token = Except.ok a) (fuel : Nat) (e : Exec)
    (res : Except WrtnError Unit) (hs : stopResult env e.idx = some res) :
    HTTPClient.send_verify_code_aux env em c (fuel + 1) e = (res, pushSvc a e) := by
  rw [svc_aux_step env em c a ha fuel e, hs]

lemma svc_aux_step_retry (env : Env) (em : String) (c : ClientState) (a : String)
    (ha : auth_header_value c.token = Except.ok a) (fuel : Nat) (e : Exec)
    (hs : stopResult env e.idx = none) :
    HTTPClient.send_verify_code_aux env em c (fuel + 1) e =
      HTTPClient.send_verify_code_aux env em c fuel (pushSvc a e) := by
  rw [svc_aux_step env em c a ha fuel e, hs]

lemma svc_aux_idx_le (env : Env) (em : String) (c : ClientState) (a : String)
    (ha : auth_header_value c.token = Except.ok a) :
    ∀ (fuel : Nat) (e : Exec),
      (HTTPClient.send_verify_code_aux env em c fuel e).2.idx ≤ e.idx + fuel := by
  intro fuel
  induction fuel with
  | zero => intro e; simp [HTTPClient.send_verify_code_aux]
  | succ f ih =>
    intro e
    rcases hs : stopResult env e.idx with _ | res
    · rw [svc_aux_step_retry env em c a ha f e hs]
      have hthis := ih (pushSvc a e)
      have hpush : (pushSvc a e).idx = e.idx + 1 := rfl
      rw [hpush] at hthis
      omega
    · rw [svc_aux_step_stop env em c a ha f e res hs]
      simp only [pushSvc]
      omega

lemma svc_aux_only_retry (env : Env) (em : String) (c : ClientState) (a : String)
    (ha : auth_header_value c.token = Except.ok a) :
    ∀ (fuel : Nat) (e : Exec) (j : Nat),
      e.idx + j + 1 < (HTTPClient.send_verify_code_aux env em c fuel e).2.idx →
      retryable env (e.idx + j) = true := by
  intro fuel
  induction fuel with
  | zero =>
    intro e j h
    simp [HTTPClient.send_verify_code_aux] at h
    omega
  | succ f ih =>
    intro e j h
    rcases hs : stopResult env e.idx with _ | res
    · rw [svc_aux_step_retry env em c a ha f e hs] at h
      rcases j with _ | j
      · unfold retryable
        simp [hs]
      · have hpush : (pushSvc a e).idx = e.idx + 1 := rfl
        have h2 := ih (pushSvc a e) j (by rw [hpush]; omega)
        rw [hpush] at h2
        have heq : e.idx + 1 + j = e.idx + (j + 1) := by omega
        rwa [heq] at h2
    · rw [svc_aux_step_stop env em c a ha f e res hs] at h
      simp only [pushSvc] at h
      omega

lemma svc_aux_exhaust (env : Env) (em : String) (c : ClientState) (a : String)
    (ha : auth_header_value c.token = Except.ok a) :
    ∀ (fuel : Nat) (e : Exec),
      (∀ j, j < fuel → retryable env (e.idx + j) = true) →
      HTTPClient.send_verify_code_aux env em c fuel e =
        (Except.error HTTPClient.svcTerminalError,
          { idx := e.idx + fuel, calls := e.calls ++ List.replicate fuel (svcCall a) }) := by
  intro fuel
  induction fuel with
  | zero =>
    intro e _
    simp [HTTPClient.send_verify_code_aux]
  | succ f ih =>
    intro e hr
    have h0 : retryable env (e.idx + 0) = true := hr 0 (by omega)
    have hs : stopResult env e.idx = none := retryable_none env _ (by simpa using h0)
    rw [svc_aux_step_retry env em c a ha f e hs]
    have hrec := ih (pushSvc a e) (fun j hj => by
      have hj2 := hr (j + 1) (by omega)
      simp only [pushSvc]
      have heq : e.idx + 1 + j = e.idx + (j + 1) := by omega
      rwa [heq])
    rw [hrec]
    have hidx : (pushSvc a e).idx + f = e.idx + (f + 1) := by simp only [pushSvc]; omega
    have hcalls : (pushSvc a e).calls ++ List.replicate f (svcCall a) =
        e.calls ++ List.replicate (f + 1) (svcCall a) := by
      simp [pushSvc, List.replicate_succ]
    rw [hidx, hcalls]

lemma svc_aux_stop (env : Env) (em : String) (c : ClientState) (a : String)
    (ha : auth_header_value c.token = Except.ok a) :
    ∀ (fuel : Nat) (e : Exec) (k : Nat), k < fuel →
      (∀ j, j < k → retryable env (e.idx + j) = true) →
      ∀ res, stopResult env (e.idx + k) = some res →
      HTTPClient.send_verify_code_aux env em c fuel e =
        (res, { idx := e.idx + (k + 1), calls := e.calls ++ List.replicate (k + 1) (svcCall a) }) := by
  intro fuel
  induction fuel with
  | zero => intro e k hk; omega
  | succ f ih =>
    intro e k hk hr res hs
    rcases k with _ | k
    · simp only [Nat.add_zero] at hs
      rw [svc_aux_step_stop env em c a ha f e res hs]
      simp [pushSvc, List.replicate_succ]
    · have h0 : retryable env (e.idx + 0) = true := hr 0 (by omega)
      have hs0 : stopResult env e.idx = none := retryable_none env _ (by simpa using h0)
      rw [svc_aux_step_retry env em c a ha f e hs0]
      have hrec := ih (pushSvc a e) k (by omega)
        (fun j hj => by
          have hj2 := hr (j + 1) (by omega)
          simp only [pushSvc]
          have heq : e.idx + 1 + j = e.idx + (j + 1) := by omega
          rwa [heq])
        res (by
          simp only [pushSvc]
          have heq : e.idx + 1 + k = e.idx + (k + 1) := by omega
          rwa [heq])
      rw [hrec]
      have hidx : (pushSvc a e).idx + (k + 1) = e.idx + (k + 1 + 1) := by
        simp only [pushSvc]; omega
      have hcalls : (pushSvc a e).calls ++ List.replicate (k + 1) (svcCall a) =
          e.calls ++ List.replicate (k + 1 + 1) (svcCall a) := by
        simp [pushSvc, List.replicate_succ]
      rw [hidx, hcalls]

lemma static_login_inv (env : Env) (tok rt : String) (c : ClientState) (e : Exec)
    (r : Except WrtnError Unit) (c1 : ClientState) (e1 : Exec)
    (h : HTTPClient.static_login env tok rt c e = (r, c1, e1)) :
    c1.token = some (JVal.str tok) ∧ c1.refresh_token = some (JVal.str rt) ∧ e1 = e := by
  unfold HTTPClient.static_login at h
  repeat' split at h
  all_goals simp_all [Prod.mk.injEq]
  all_goals (rcases h with ⟨h1, h2, h3⟩; subst h2; subst h3; simp)

lemma local_login_ok_inv (env : Env) (em pw : String) (c : ClientState) (e : Exec)
    (c1 : ClientState) (e1 : Exec)
    (h : HTTPClient.local_login env em pw c e = (Except.ok (), c1, e1)) :
    ∃ av rv m, c1 = { token := some av, refresh_token := some rv, refresh_time := some m } := by
  unfold HTTPClient.local_login at h
  repeat' split at h
  all_goals simp_all [Prod.mk.injEq]
  all_goals exact ⟨_, _, _, h.1.symm⟩

lemma refresh_token_ok_inv (env : Env) (c : ClientState) (e : Exec)
    (c1 : ClientState) (e1 : Exec)
    (h : HTTPClient.refresh_token env c e = (Except.ok (), c1, e1)) :
    ∃ av m, c1 = { c with token := some av, refresh_time := some m } := by
  unfold HTTPClient.refresh_token at h
  repeat' split at h
  all_goals simp_all [Prod.mk.injEq]
  all_goals exact ⟨_, _, h.1.symm⟩

/-- C1 (corrected): for a status outside [200,300) the Forbidden check
does take precedence over NotFound and ServerError — but only for
bodies that are JSON objects.  A normalized body that is not a dict
(raw text, or non-object JSON) makes `data.get("result")` raise
`AttributeError` instead of anything being classified, so the claim's
"every normalized body" fails; this theorem states the amended claim:
(1) an object body whose `result` field is not the string "SUCCESS"
classifies as Forbidden at every non-2xx status, 404 and 500 and above
included; (2) status 403 with an object body classifies as Forbidden
even when `result` is "SUCCESS"; (3) a raw-text body raises
`AttributeError` at every non-2xx status. -/
theorem C1_forbidden_precedence (status : Nat) (fields : List (String × JVal))
    (hs : ¬ (200 ≤ status ∧ status < 300)) :
    (pyEqStr (lookupField fields "result") "SUCCESS" = false →
      classify status (Body.json (JVal.obj fields)) =
        Except.error (WrtnError.forbidden status (Body.json (JVal.obj fields)))) ∧
    (status = 403 →
      classify status (Body.json (JVal.obj fields)) =
        Except.error (WrtnError.forbidden status (Body.json (JVal.obj fields)))) ∧
    (∀ s, classify status (Body.text s) = Except.error WrtnError.attributeError) := by
  refine ⟨fun hr => ?_, fun h403 => ?_, fun s => ?_⟩
  · simp [classify, hs, dictGet, hr]
  · subst h403
    simp [classify, dictGet]
  · simp [classify, hs, dictGet]

/-- Witness for C1 at concrete inputs: a 404 response and a 500
response whose object bodies lack the success marker are both routed
to Forbidden, ahead of NotFound and ServerError. -/
theorem C1_forbidden_precedence_witness :
    classify 404 (Body.json (JVal.obj [])) =
      Except.error (WrtnError.forbidden 404 (Body.json (JVal.obj []))) ∧
    classify 500 (Body.json (JVal.obj [])) =
      Except.error (WrtnError.forbidden 500 (Body.json (JVal.obj []))) :=
  ⟨(C1_forbidden_precedence 404 [] (by decide)).1 rfl,
    (C1_forbidden_precedence 500 [] (by decide)).1 rfl⟩

/-- Counterexample for C1 as stated: at status 403 with the raw-text
body "oops" (a body that certainly lacks a `result` field equal to
"SUCCESS"), the request executor raises `AttributeError`, not
`Forbidden`. -/
theorem C1_counterexample :
    ¬ (∀ (status : Nat) (body : Body), ¬ (200 ≤ status ∧ status < 300) →
        (dictGet body "result" ≠ Except.ok (some (JVal.str "SUCCESS")) ∨ status = 403) →
        ∃ st b, classify status body = Except.error (WrtnError.forbidden st b)) := by
  intro h
  rcases h 403 (Body.text "oops") (by decide) (Or.inr rfl) with ⟨st, b, hb⟩
  have hval : classify 403 (Body.text "oops") = Except.error WrtnError.attributeError := rfl
  rw [hval] at hb
  simp at hb

/-- C3 (code_bug): the claim — and the suppress-plus-fallback
structure the code itself was written with — says a parse failure
degrades to raw text and the normalization never raises; but because
`response.json()` is an async method, its parse error fires only at
`data = await content_type(response)` (http.py line 137), outside the
`contextlib.suppress` (http.py lines 29-31), so the text fallback is
unreachable and the executor raises for a malformed non-HTML body.
Evaluation at the failing input: the 200 application/json response
with unparseable body "nope" makes `content_type` return the json
coroutine, the await raise, and `request` fail with the parse error —
while the faithful parts of the claim (HTML-typed text passthrough
even for JSON-valued text, and parsed-body passthrough on success)
do hold. -/
theorem C3_normalize_raises_on_malformed :
    content_type respBadJson = PyCoroutine.jsonCo (Except.error ()) ∧
    await_co (content_type respBadJson) = Except.error () ∧
    (HTTPClient.request (envOf (constOracle respBadJson)) (Route.api "GET" "/user") [] false
        (HTTPClient.init 0) execEmpty).1 = Except.error WrtnError.jsonDecodeError ∧
    await_co (content_type respHtmlJson) = Except.ok (Body.text "[1]") ∧
    await_co (content_type respGoodJson) = Except.ok (Body.json (JVal.num 1)) :=
  ⟨rfl, rfl, rfl, rfl, rfl⟩

/-- C5 (confirmed): for every status in [200,300) the classifier
returns the normalized body unchanged whatever its shape, and
whenever normalization yields a body — parsed JSON, or raw text from
an HTML-typed response — the request executor returns exactly that
body with no error.  (A malformed non-HTML body never produces a
normalized body: the normalization await raises before the status
dispatch; see the C3 theorem.) -/
theorem C5_success_passthrough (env : Env) (route : Route)
    (h0 : List (String × String)) (hj : Bool) (c : ClientState) (e : Exec)
    (a : String) (status : Nat) (body : Body) (data : Body)
    (h1 : 200 ≤ status) (h2 : status < 300)
    (ha : auth_header_value c.token = Except.ok a)
    (hs : (env.oracle e.idx).status = status)
    (hn : await_co (content_type (env.oracle e.idx)) = Except.ok data) :
    classify status body = Except.ok body ∧
    (HTTPClient.request env route h0 hj c e).1 = Except.ok data := by
  constructor
  · simp [classify, h1, h2]
  · rw [request_ok env route h0 hj c e a ha]
    unfold attemptClass
    rw [hn]
    simp [hs, classify, h1, h2]

/-- Witness for C5: a 200 HTML-typed response whose text is plain
non-JSON is normalized to that text and returned unchanged by the
executor, and the classifier passes an arbitrary text body through at
status 200. -/
theorem C5_success_passthrough_witness :
    classify 200 (Body.text "raw") = Except.ok (Body.text "raw") ∧
    (HTTPClient.request (envOf (constOracle respHtmlPlain)) (Route.api "GET" "/user") [] false
        (HTTPClient.init 0) execEmpty).1 = Except.ok (Body.text "plain text") :=
  C5_success_passthrough (envOf (constOracle respHtmlPlain)) (Route.api "GET" "/user") [] false
    (HTTPClient.init 0) execEmpty "Bearer undefined" 200 (Body.text "raw")
    (Body.text "plain text") (by decide) (by decide) rfl rfl rfl

/-- C2 (corrected): `token` and `refresh_token` are `None` at
construction, but `refresh_time` is not — `__init__` assigns
`datetime.now()` to it.  A static login whose token decodes with a
numeric `exp` claim, and any successful local login or refresh, update
token and expiry together; but a static login whose token fails to
decode still stores the token and refresh token while leaving the
expiry unchanged, so the trio is not in general updated atomically. -/
theorem C2_session_lifecycle (now : Int) (env : Env) (tok rt : String)
    (payload : List (String × JVal)) (n : Int) (c : ClientState) (e : Exec) :
    ((HTTPClient.init now).token = none ∧ (HTTPClient.init now).refresh_token = none ∧
      (HTTPClient.init now).refresh_time = some now) ∧
    (env.jwt_decode_noverify tok = Except.ok payload →
      lookupField payload "exp" = some (JVal.num n) →
      HTTPClient.static_login env tok rt c e =
        (Except.ok (),
          { token := some (JVal.str tok), refresh_token := some (JVal.str rt),
            refresh_time := some n }, e)) ∧
    (env.jwt_decode_noverify tok = Except.error () →
      HTTPClient.static_login env tok rt c e =
        (Except.error WrtnError.jwtDecodeError,
          { c with token := some (JVal.str tok), refresh_token := some (JVal.str rt) }, e)) ∧
    (∀ em pw c1 e1, HTTPClient.local_login env em pw c e = (Except.ok (), c1, e1) →
      ∃ av rv m, c1 = { token := some av, refresh_token := some rv, refresh_time := some m }) ∧
    (∀ c1 e1, HTTPClient.refresh_token env c e = (Except.ok (), c1, e1) →
      ∃ av m, c1 = { c with token := some av, refresh_time := some m }) := by
  refine ⟨⟨rfl, rfl, rfl⟩, fun hd he => ?_, fun hd => ?_, ?_, ?_⟩
  · unfold HTTPClient.static_login
    rw [hd]
    simp [he]
  · unfold HTTPClient.static_login
    rw [hd]
  · intro em pw c1 e1 h
    exact local_login_ok_inv env em pw c e c1 e1 h
  · intro c1 e1 h
    exact refresh_token_ok_inv env c e c1 e1 h

/-- Witness for C2: with a decoder yielding `exp = 100`, a concrete
static login stores token, refresh token and expiry together. -/
theorem C2_session_lifecycle_witness :
    HTTPClient.static_login (envOf (constOracle respGoodJson)) "t" "r"
        (HTTPClient.init 0) execEmpty =
      (Except.ok (),
        { token := some (JVal.str "t"), refresh_token := some (JVal.str "r"),
          refresh_time := some 100 }, execEmpty) :=
  (C2_session_lifecycle 0 (envOf (constOracle respGoodJson)) "t" "r"
    [("exp", JVal.num 100)] 100 (HTTPClient.init 0) execEmpty).2.1 rfl rfl

/-- Counterexample for C2 as stated: at construction the three session
fields are not all `None` — `refresh_time` (the token expiry) is set to
the construction instant (here 5). -/
theorem C2_counterexample :
    ¬ ((HTTPClient.init 5).token = none ∧ (HTTPClient.init 5).refresh_token = none ∧
      (HTTPClient.init 5).refresh_time = none) := by
  intro h
  have h3 := h.2.2
  simp [HTTPClient.init] at h3

/-- C6 (corrected): `static_login` obtains the expiry with the
non-verifying decoder only — its outcome is unchanged when the
verifying decoder is replaced arbitrarily, provided the non-verifying
decoder agrees — and on a successful decode stores the `exp` claim as
the expiry.  But a decode failure is not treated as expiry-unknown:
the exception propagates, the login operation fails, and the expiry is
left unchanged (while token and refresh token were already stored). -/
theorem C6_nonverifying_decode (env env2 : Env) (tok rt : String)
    (payload : List (String × JVal)) (n : Int) (c : ClientState) (e : Exec) :
    (env.jwt_decode_noverify = env2.jwt_decode_noverify →
      HTTPClient.static_login env tok rt c e = HTTPClient.static_login env2 tok rt c e) ∧
    (env.jwt_decode_noverify tok = Except.ok payload →
      lookupField payload "exp" = some (JVal.num n) →
      (HTTPClient.static_login env tok rt c e).1 = Except.ok () ∧
      (HTTPClient.static_login env tok rt c e).2.1.refresh_time = some n) ∧
    (env.jwt_decode_noverify tok = Except.error () →
      (HTTPClient.static_login env tok rt c e).1 = Except.error WrtnError.jwtDecodeError ∧
      (HTTPClient.static_login env tok rt c e).2.1.refresh_time = c.refresh_time) := by
  refine ⟨fun hsame => ?_, fun hd he => ?_, fun hd => ?_⟩
  · unfold HTTPClient.static_login
    rw [hsame]
  · unfold HTTPClient.static_login
    rw [hd]
    simp [he]
  · unfold HTTPClient.static_login
    rw [hd]
    exact ⟨rfl, rfl⟩

/-- Witness for C6: the conclusion of the decode-success case at a
concrete environment, and the independence of the verifying decoder
between two concrete environments differing only there. -/
theorem C6_nonverifying_decode_witness :
    (HTTPClient.static_login (envOf (constOracle respGoodJson)) "t" "r"
        (HTTPClient.init 0) execEmpty).2.1.refresh_time = some 100 ∧
    HTTPClient.static_login (envOf (constOracle respGoodJson)) "t" "r"
        (HTTPClient.init 0) execEmpty =
      HTTPClient.static_login
        { envOf (constOracle respGoodJson) with jwt_decode_verify := fun _ => Except.ok [] }
        "t" "r" (HTTPClient.init 0) execEmpty :=
  ⟨((C6_nonverifying_decode (envOf (constOracle respGoodJson))
      (envOf (constOracle respGoodJson)) "t" "r" [("exp", JVal.num 100)] 100
      (HTTPClient.init 0) execEmpty).2.1 rfl rfl).2,
    (C6_nonverifying_decode (envOf (constOracle respGoodJson))
      { envOf (constOracle respGoodJson) with jwt_decode_verify := fun _ => Except.ok [] }
      "t" "r" [("exp", JVal.num 100)] 100 (HTTPClient.init 0) execEmpty).1 rfl⟩

/-- Counterexample for C6 as stated: with a concrete environment whose
non-verifying decoder fails on the handed token, `static_login` itself
fails (raises) instead of merely leaving the expiry unknown. -/
theorem C6_counterexample :
    (HTTPClient.static_login envBadDecode "t" "r" (HTTPClient.init 0) execEmpty).1 =
      Except.error WrtnError.jwtDecodeError ∧
    (HTTPClient.static_login envBadDecode "t" "r" (HTTPClient.init 0) execEmpty).1 ≠
      Except.ok () := by
  refine ⟨rfl, fun hcontra => ?_⟩
  exact Except.noConfusion hcontra

/-- C9 (confirmed): every request the executor issues carries an
Authorization header equal to the literal "Bearer undefined" when no
token is set in the session, and "Bearer " followed by the token when
a (string) token is set; this holds whatever headers the caller
supplied, since the executor overwrites the Authorization key last. -/
theorem C9_authorization_header (env : Env) (route : Route)
    (h0 : List (String × String)) (hj : Bool) (c : ClientState) (e : Exec) :
    (c.token = none →
      (HTTPClient.request env route h0 hj c e).2.calls =
        e.calls ++ [reqCall route (headersOk "Bearer undefined" h0 hj route.method)] ∧
      hget (headersOk "Bearer undefined" h0 hj route.method) "Authorization" =
        some "Bearer undefined") ∧
    (∀ t, c.token = some (JVal.str t) →
      (HTTPClient.request env route h0 hj c e).2.calls =
        e.calls ++ [reqCall route (headersOk ("Bearer " ++ t) h0 hj route.method)] ∧
      hget (headersOk ("Bearer " ++ t) h0 hj route.method) "Authorization" =
        some ("Bearer " ++ t)) := by
  constructor
  · intro hn
    have ha : auth_header_value c.token = Except.ok "Bearer undefined" := by
      rw [hn]; rfl
    rw [request_ok env route h0 hj c e "Bearer undefined" ha]
    exact ⟨rfl, hget_headersOk_auth "Bearer undefined" h0 hj route.method⟩
  · intro t ht
    have ha : auth_header_value c.token = Except.ok ("Bearer " ++ t) := by
      rw [ht]; rfl
    rw [request_ok env route h0 hj c e ("Bearer " ++ t) ha]
    exact ⟨rfl, hget_headersOk_auth ("Bearer " ++ t) h0 hj route.method⟩

/-- Witness for C9: a concrete unauthenticated request carries the
literal sentinel, and the same request after a token is set carries
"Bearer tok" — even though the caller supplied its own Authorization
header. -/
theorem C9_authorization_header_witness :
    hget (headersOk "Bearer undefined" [("Authorization", "Bearer fake")] false "GET")
      "Authorization" = some "Bearer undefined" ∧
    hget (headersOk "Bearer tok" [("Authorization", "Bearer fake")] false "GET")
      "Authorization" = some ("Bearer " ++ "tok") :=
  ⟨((C9_authorization_header (envOf (constOracle respGoodJson)) (Route.api "GET" "/user")
      [("Authorization", "Bearer fake")] false (HTTPClient.init 0) execEmpty).1 rfl).2,
    ((C9_authorization_header (envOf (constOracle respGoodJson)) (Route.api "GET" "/user")
      [("Authorization", "Bearer fake")] false
      { HTTPClient.init 0 with token := some (JVal.str "tok") } execEmpty).2 "tok" rfl).2⟩

/-- C10 (confirmed): `__init__` stores `refresh_token` in the instance
dict, and instance attributes shadow class methods, so after any login
the attribute `refresh_token` holds the refresh-token value (the
string handed to `static_login`, or some stored value after a
successful `local_login`) and calling `client.refresh_token()` raises
`TypeError` — leaving the session and the transport trace untouched,
so no POST /auth/refresh is ever issued and token and expiry are not
updated. -/
theorem C10_refresh_token_shadowing (env : Env) (tok rt em pw : String)
    (c : ClientState) (e : Exec) :
    (∀ c0 e0, call_refresh_token env c0 e0 = (Except.error WrtnError.typeError, c0, e0)) ∧
    (∀ r c1 e1, HTTPClient.static_login env tok rt c e = (r, c1, e1) →
      c1.refresh_token = some (JVal.str rt) ∧
      getattr c1 "refresh_token" = some (Attr.val (some (JVal.str rt)))) ∧
    (∀ c1 e1, HTTPClient.local_login env em pw c e = (Except.ok (), c1, e1) →
      ∃ rv, c1.refresh_token = some rv ∧
        getattr c1 "refresh_token" = some (Attr.val (some rv))) := by
  refine ⟨fun c0 e0 => rfl, fun r c1 e1 h => ?_, fun c1 e1 h => ?_⟩
  · have hrt := (static_login_inv env tok rt c e r c1 e1 h).2.1
    refine ⟨hrt, ?_⟩
    unfold getattr instLookup
    rw [hrt]
    rfl
  · rcases local_login_ok_inv env em pw c e c1 e1 h with ⟨av, rv, m, hc⟩
    subst hc
    exact ⟨rv, rfl, rfl⟩

/-- Witness for C10: after the concrete static login of the C2
witness, the attribute holds the string "r" and the call raises
`TypeError` with the state unchanged. -/
theorem C10_refresh_token_shadowing_witness :
    call_refresh_token (envOf (constOracle respGoodJson)) cLogged execEmpty =
      (Except.error WrtnError.typeError, cLogged, execEmpty) ∧
    getattr cLogged "refresh_token" = some (Attr.val (some (JVal.str "r"))) :=
  ⟨(C10_refresh_token_shadowing (envOf (constOracle respGoodJson)) "t" "r" "a" "b"
      (HTTPClient.init 0) execEmpty).1 cLogged execEmpty,
    ((C10_refresh_token_shadowing (envOf (constOracle respGoodJson)) "t" "r" "a" "b"
      (HTTPClient.init 0) execEmpty).2.1 (Except.ok ()) cLogged execEmpty rfl).2⟩

lemma local_login_calls (env : Env) (em pw : String) (c : ClientState) (e : Exec)
    (a : String) (ha : auth_header_value c.token = Except.ok a) :
    ∃ rest, (HTTPClient.local_login env em pw c e).2.2.calls =
      e.calls ++ checkCall a :: rest := by
  unfold HTTPClient.local_login
  rw [email_exist_eq env em c e a ha]
  rcases h1 : emailOutcome env e.idx with err | b
  · exact ⟨[], by simp⟩
  · rcases b with _ | _
    · exact ⟨[], by simp⟩
    · dsimp only
      rw [email_exist_eq env em c _ a ha]
      rcases h2 : emailOutcome env ({ idx := e.idx + 1, calls := e.calls ++ [checkCall a] } : Exec).idx
        with err2 | b2
      · exact ⟨[checkCall a], by simp⟩
      · dsimp only
        rw [request_ok env (Route.api "POST" "/auth/local") [] true c _ a ha]
        refine ⟨[checkCall a,
          reqCall (Route.api "POST" "/auth/local") (headersOk a [] true "POST")], ?_⟩
        simp only [reqCall]
        repeat' split
        all_goals simp_all [Route.api]
        all_goals (obtain ⟨-, rfl⟩ := ‹_ ∧ _›; simp)

/-- C7 (confirmed): `static_login` issues no HTTP request at all — the
transport trace and call counter are untouched — while `local_login`
always issues the GET /auth/check existence request first, and when
that check returns false it raises `UserNotFound` after exactly that
one request, never reaching POST /auth/local. -/
theorem C7_login_endpoint_discipline (env : Env) (tok rt em pw : String)
    (a : String) (c : ClientState) (e : Exec)
    (ha : auth_header_value c.token = Except.ok a) :
    (HTTPClient.static_login env tok rt c e).2.2 = e ∧
    (∃ rest, (HTTPClient.local_login env em pw c e).2.2.calls =
      e.calls ++ checkCall a :: rest) ∧
    (emailOutcome env e.idx = Except.ok false →
      HTTPClient.local_login env em pw c e =
        (Except.error (WrtnError.userNotFound "You are not signed in or are not a local user."),
          c, { idx := e.idx + 1, calls := e.calls ++ [checkCall a] })) := by
  refine ⟨(static_login_inv env tok rt c e _ _ _ rfl).2.2, ?_, fun hfalse => ?_⟩
  · exact local_login_calls env em pw c e a ha
  · unfold HTTPClient.local_login
    rw [email_exist_eq env em c e a ha, hfalse]

/-- Witness for C7: with a transport that reports no local account,
static login touches no endpoint and the concrete local login stops
with `UserNotFound` after the single existence-check request. -/
theorem C7_login_endpoint_discipline_witness :
    (HTTPClient.static_login envNoUser "t" "r" (HTTPClient.init 0) execEmpty).2.2 =
      execEmpty ∧
    HTTPClient.local_login envNoUser "a@b" "pw" (HTTPClient.init 0) execEmpty =
      (Except.error (WrtnError.userNotFound "You are not signed in or are not a local user."),
        HTTPClient.init 0,
        { idx := 0 + 1, calls := [] ++ [checkCall "Bearer undefined"] }) :=
  ⟨(C7_login_endpoint_discipline envNoUser "t" "r" "a@b" "pw" "Bearer undefined"
      (HTTPClient.init 0) execEmpty rfl).1,
    (C7_login_endpoint_discipline envNoUser "t" "r" "a@b" "pw" "Bearer undefined"
      (HTTPClient.init 0) execEmpty rfl).2.2 rfl⟩

/-- C8 (confirmed): `email_exist` returns false when the response's
account-data result is empty, and false when the account's provider is
not the string "local"; it returns true exactly when a non-empty
account record with provider "local" comes back — and the
no-such-account case is the value false, not a raised error. -/
theorem C8_email_exist_semantics (env : Env) (em : String) (c : ClientState)
    (e : Exec) (a : String) (ha : auth_header_value c.token = Except.ok a)
    (body : Body) (hb : attemptClass env e.idx = Except.ok body)
    (d : JVal) (hd : subscriptB body "data" = Except.ok d) :
    (pyLen d = Except.ok 0 → (HTTPClient.email_exist env em c e).1 = Except.ok false) ∧
    (∀ k, pyLen d = Except.ok (k + 1) →
      ∀ p, subscriptV d "provider" = Except.ok p → pyEqStrV p "local" = false →
        (HTTPClient.email_exist env em c e).1 = Except.ok false) ∧
    (∀ k, pyLen d = Except.ok (k + 1) →
      subscriptV d "provider" = Except.ok (JVal.str "local") →
        (HTTPClient.email_exist env em c e).1 = Except.ok true) ∧
    ((HTTPClient.email_exist env em c e).1 = Except.ok true →
      ∃ k, pyLen d = Except.ok (k + 1) ∧
        subscriptV d "provider" = Except.ok (JVal.str "local")) := by
  rw [email_exist_eq env em c e a ha]
  simp only [emailOutcome, hb]
  unfold HTTPClient.email_exist_post
  rw [hd]
  dsimp only
  refine ⟨fun hlen => ?_, fun k hlen p hp hne => ?_, fun k hlen hp => ?_, fun htrue => ?_⟩
  · rw [hlen]
  · rw [hlen, hp]
    simp [hne]
  · rw [hlen, hp]
    rfl
  · rcases hlen : pyLen d with pe | k
    · rw [hlen] at htrue
      simp at htrue
    · rcases k with _ | k
      · rw [hlen] at htrue
        simp at htrue
      · rw [hlen] at htrue
        rcases hp : subscriptV d "provider" with pe2 | p
        · rw [hp] at htrue
          simp at htrue
        · rw [hp] at htrue
          rcases hpl : pyEqStrV p "local" with _ | _
          · simp [hpl] at htrue
          · have hp2 := pyEqStrV_true p "local" hpl
            subst hp2
            exact ⟨k, rfl, rfl⟩

/-- Witness for C8: an empty account record yields false, a "kakao"
provider yields false, a "local" provider yields true. -/
theorem C8_email_exist_semantics_witness :
    (HTTPClient.email_exist envNoUser "a@b" (HTTPClient.init 0) execEmpty).1 =
      Except.ok false ∧
    (HTTPClient.email_exist envKakao "a@b" (HTTPClient.init 0) execEmpty).1 =
      Except.ok false ∧
    (HTTPClient.email_exist envLocal "a@b" (HTTPClient.init 0) execEmpty).1 =
      Except.ok true :=
  ⟨(C8_email_exist_semantics envNoUser "a@b" (HTTPClient.init 0) execEmpty
      "Bearer undefined" rfl _ rfl (JVal.obj []) rfl).1 rfl,
    (C8_email_exist_semantics envKakao "a@b" (HTTPClient.init 0) execEmpty
      "Bearer undefined" rfl _ rfl (JVal.obj [("provider", JVal.str "kakao")]) rfl).2.1
      0 rfl (JVal.str "kakao") rfl rfl,
    (C8_email_exist_semantics envLocal "a@b" (HTTPClient.init 0) execEmpty
      "Bearer undefined" rfl _ rfl (JVal.obj [("provider", JVal.str "local")]) rfl).2.2.1
      0 rfl rfl⟩

/-- C4 (confirmed): `send_verify_code` makes at most 5 attempts (one
POST /auth/code request each, so the call counter advances by at most
5); every attempt except the last one was a ServerError whose message
body contains the subscriber-status marker (the only retried case);
when all 5 attempts are retryable the loop exhausts and raises the
terminal ServerError with the fixed Korean message after exactly 5
requests; and the first non-retryable attempt ends the operation
immediately after that attempt, with that attempt's own outcome —
success, the re-raised ServerError when the marker is absent, or the
error the marker check itself raises, or any other error unchanged. -/
theorem C4_send_verify_code_retry_policy (env : Env) (em : String) (c : ClientState)
    (e : Exec) (a : String) (ha : auth_header_value c.token = Except.ok a) :
    ((HTTPClient.send_verify_code env em c e).2.idx ≤ e.idx + 5) ∧
    (∀ j, e.idx + j + 1 < (HTTPClient.send_verify_code env em c e).2.idx →
      retryable env (e.idx + j) = true) ∧
    ((∀ j, j < 5 → retryable env (e.idx + j) = true) →
      HTTPClient.send_verify_code env em c e =
        (Except.error HTTPClient.svcTerminalError,
          { idx := e.idx + 5, calls := e.calls ++ List.replicate 5 (svcCall a) })) ∧
    (∀ k, k < 5 → (∀ j, j < k → retryable env (e.idx + j) = true) →
      ∀ res, stopResult env (e.idx + k) = some res →
      HTTPClient.send_verify_code env em c e =
        (res, { idx := e.idx + (k + 1), calls := e.calls ++ List.replicate (k + 1) (svcCall a) })) := by
  refine ⟨svc_aux_idx_le env em c a ha 5 e, fun j hj => ?_, fun hr => ?_, fun k hk hr res hs => ?_⟩
  · exact svc_aux_only_retry env em c a ha 5 e j hj
  · exact svc_aux_exhaust env em c a ha 5 e hr
  · exact svc_aux_stop env em c a ha 5 e k hk hr res hs

/-- Witness for C4: with a transport that always answers 500 with a
marker-bearing ServerError body, the loop makes exactly 5 attempts and
raises the terminal error; and with a transport that always answers
500 with a marker-free body, the loop stops after 1 attempt re-raising
that ServerError. -/
theorem C4_send_verify_code_retry_policy_witness :
    HTTPClient.send_verify_code envRetry "a@b" (HTTPClient.init 0) execEmpty =
      (Except.error HTTPClient.svcTerminalError,
        { idx := 0 + 5, calls := [] ++ List.replicate 5 (svcCall "Bearer undefined") }) ∧
    HTTPClient.send_verify_code (envOf (constOracle (respOf 500 plainErrBody))) "a@b"
        (HTTPClient.init 0) execEmpty =
      (Except.error (WrtnError.serverError 500 (Body.json plainErrBody)),
        { idx := 0 + (0 + 1),
          calls := [] ++ List.replicate (0 + 1) (svcCall "Bearer undefined") }) :=
  ⟨(C4_send_verify_code_retry_policy envRetry "a@b" (HTTPClient.init 0) execEmpty
      "Bearer undefined" rfl).2.2.1 (fun j _ => rfl),
    (C4_send_verify_code_retry_policy (envOf (constOracle (respOf 500 plainErrBody)))
      "a@b" (HTTPClient.init 0) execEmpty "Bearer undefined" rfl).2.2.2
      0 (by decide) (fun j hj => absurd hj (by omega))
      (Except.error (WrtnError.serverError 500 (Body.json plainErrBody))) rfl⟩
